import Mathlib

/-!
Shallow embedding of `src/chatbot/AdvancedAppina.py` (BI_Assistant).

External collaborators (the Gemini LLM client, the MySQL database, the
schema-description file) are modelled as oracles and explicit state:

* every LLM call is a function argument returning `Except Err String`
  (`.error` models a raised exception, `.ok` the completion content);
* the schema-description store (`schema_descriptions.txt`) is a `String`
  holding the file content, `""` when the file is absent or empty
  (both behave identically in every code path: `load_existing_descriptions`
  returns `""` and `open(..., "a")` appends);
* the conversation log (`st.session_state.chat_history`) is a `List Msg`;
* each turn additionally returns a trace of the external calls it made,
  so that invocation-count and call-argument properties can be stated.
-/

namespace BIAssistant

/-- Payload of a raised Python exception. -/
abbrev Err := String

/-- Role of a chat message: langchain `HumanMessage` or `AIMessage`. -/
inductive Role
  | human
  | ai
deriving DecidableEq, Repr

/-- One entry of the conversation log (`st.session_state.chat_history`). -/
structure Msg where
  role : Role
  content : String
deriving DecidableEq, Repr

/-- The whitespace characters removed by Python `str.strip()` (ASCII part). -/
def pyIsSpace (c : Char) : Bool :=
  c == ' ' || c == '\t' || c == '\n' || c == '\r' || c == Char.ofNat 11 || c == Char.ofNat 12

/-- Python `str.strip()`: remove leading and trailing whitespace. -/
def pyStrip (s : String) : String :=
  String.mk (((s.data.dropWhile pyIsSpace).reverse.dropWhile pyIsSpace).reverse)

/-- Python `str.lower()` (ASCII range, which covers the compared labels). -/
def pyLower (s : String) : String :=
  String.mk (s.data.map Char.toLower)

/-- The value bound to the summarization prompt's `schema` slot.  In the
source, `.assign(schema=lambda _: get_schema, ...)` binds the local function
object `get_schema` itself (the lambda returns the function without calling
it), so the slot can hold either real text or that function object. -/
inductive SchemaInput
  | text (s : String)
  | funcObj
deriving DecidableEq, Repr

/-- Trace of the externally visible calls made during a turn. -/
inductive Event
  | classifierCall (q : String)
  | verifierCall (q : String) (desc : String)
  | nonSeriousCall (q : String)
  | pipelineCall (q : String) (hist : List Msg)
  | describeCall
  | describeLLMCall
  | storeWrite (content : String)
  | dbGetInfoCall
  | dbRunCall (sql : String)
  | sumLLMCall (schemaArg : SchemaInput) (hist : List Msg) (sql : String) (q : String) (resp : String)
  | sqlLLMCall (desc : String) (hist : List Msg)
deriving DecidableEq, Repr

/-- Number of events of a given kind in a trace. -/
def countEvents (p : Event → Bool) (tr : List Event) : Nat :=
  (tr.filter p).length

def isClassifierCall : Event → Bool
  | .classifierCall _ => true
  | _ => false

def isVerifierCall : Event → Bool
  | .verifierCall _ _ => true
  | _ => false

def isNonSeriousCall : Event → Bool
  | .nonSeriousCall _ => true
  | _ => false

def isPipelineCall : Event → Bool
  | .pipelineCall _ _ => true
  | _ => false

def isDescribeCall : Event → Bool
  | .describeCall => true
  | _ => false

def isDescribeLLMCall : Event → Bool
  | .describeLLMCall => true
  | _ => false

def isStoreWrite : Event → Bool
  | .storeWrite _ => true
  | _ => false

def isDbRunCall : Event → Bool
  | .dbRunCall _ => true
  | _ => false

def isSqlLLMCall : Event → Bool
  | .sqlLLMCall _ _ => true
  | _ => false

def isSumLLMCall : Event → Bool
  | .sumLLMCall _ _ _ _ _ => true
  | _ => false

/-- A `sumLLMCall` whose schema slot carries actual text. -/
def isSumLLMCallWithText : Event → Bool
  | .sumLLMCall (.text _) _ _ _ _ => true
  | _ => false

/-- The `SQLDatabase` handle: schema introspection and query execution.
`.error` models a raised exception. -/
structure SQLDatabase where
  get_table_info : Except Err String
  run : String → Except Err String

/-- All LLM oracles, one per prompt-templated call in the source; each
takes the values substituted into its prompt template. -/
structure Oracles where
  classifyLLM : String → Except Err String
  verifyLLM : String → String → Except Err String
  nonSeriousLLM : String → Except Err String
  describeLLM : String → Except Err String
  sqlLLM : String → List Msg → Except Err String
  sumLLM : SchemaInput → List Msg → String → String → String → Except Err String

/-! ## SchemaDescriber -/

/-- The separator `save_descriptions` writes after the description:
`"\n" + "-" * 80 + "\n"`. -/
def separator : String :=
  "\n" ++ String.mk (List.replicate 80 '-') ++ "\n"

/-- `SchemaDescriber.generate_description`: one LLM call, content stripped. -/
def generate_description (describeLLM : String → Except Err String)
    (schema_info : String) : Except Err String :=
  match describeLLM schema_info with
  | .error e => .error e
  | .ok content => .ok (pyStrip content)

/-- `SchemaDescriber.save_descriptions`: append the description and the
separator to the store file (opened in mode `"a"`). -/
def save_descriptions (store : String) (descriptions : String) : String :=
  store ++ descriptions ++ separator

/-- `SchemaDescriber.load_existing_descriptions`: the file content, or `""`
when the file does not exist. -/
def load_existing_descriptions (store : String) : String :=
  store

/-- Result of one `describe_and_save_all` call: the returned value (or the
propagated exception), the store content afterwards, and the trace. -/
structure DescribeResult where
  ret : Except Err String
  store : String
  events : List Event
deriving Repr

/-- `SchemaDescriber.describe_and_save_all`: return the stored content when
any exists; otherwise generate a description via one LLM call, append it
with the separator to the store, and return it. -/
def describe_and_save_all (describeLLM : String → Except Err String)
    (store : String) (database_schema : String) : DescribeResult :=
  let existing_descriptions := load_existing_descriptions store
  if existing_descriptions ≠ "" then
    ⟨.ok existing_descriptions, store, [.describeCall]⟩
  else
    match generate_description describeLLM database_schema with
    | .error e => ⟨.error e, store, [.describeCall, .describeLLMCall]⟩
    | .ok description =>
        ⟨.ok description, save_descriptions store description,
          [.describeCall, .describeLLMCall, .storeWrite description]⟩

/-! ## Classifier, verifier, non-serious responder -/

/-- `QuestionClassifier.classify_question`: one LLM call,
`response.content.strip().lower()`. -/
def classify_question (o : Oracles) (question : String) : Except Err String :=
  match o.classifyLLM question with
  | .error e => .error e
  | .ok content => .ok (pyLower (pyStrip content))

/-- `SchemaVerifier.verify_schema_relevance`: one LLM call,
`response.content.strip().lower()`. -/
def verify_schema_relevance (o : Oracles) (question : String)
    (schema_info : String) : Except Err String :=
  match o.verifyLLM question schema_info with
  | .error e => .error e
  | .ok content => .ok (pyLower (pyStrip content))

/-- `NonSeriousAssistant.get_non_serious_response`: one LLM call,
`response.content.strip()`. -/
def get_non_serious_response (o : Oracles) (question : String) : Except Err String :=
  match o.nonSeriousLLM question with
  | .error e => .error e
  | .ok content => .ok (pyStrip content)

/-! ## SQLAssistant -/

/-- The fixed message returned by `generate_response` when any stage of the
chain raises. -/
def error_message : String :=
  "An error occurred while processing your request. This could be due to hitting the API limit or other issues. Please try again later."

/-- The `get_schema` helper used inside `get_sql_chain`: fetch the raw
schema from the database and run it through the schema-description cache. -/
def get_schema (o : Oracles) (db : SQLDatabase) (store : String) :
    Except Err String × String × List Event :=
  match db.get_table_info with
  | .error e => (.error e, store, [.dbGetInfoCall])
  | .ok schema_info =>
    let d := describe_and_save_all o.describeLLM store schema_info
    (d.ret, d.store, .dbGetInfoCall :: d.events)

/-- Invocation of the chain built by `SQLAssistant.get_sql_chain` on input
`{chat_history}`: assign `schema := get_schema(input)`, fill the SQL prompt,
call the LLM. -/
def sql_chain_invoke (o : Oracles) (db : SQLDatabase) (store : String)
    (chat_history : List Msg) : Except Err String × String × List Event :=
  match get_schema o db store with
  | (.error e, st, tr) => (.error e, st, tr)
  | (.ok descriptions, st, tr) =>
    match o.sqlLLM descriptions chat_history with
    | .error e => (.error e, st, tr ++ [.sqlLLMCall descriptions chat_history])
    | .ok sql => (.ok sql, st, tr ++ [.sqlLLMCall descriptions chat_history])

/-- Invocation of the full chain inside `SQLAssistant.generate_response`:
`assign(query=sql_chain).assign(schema=lambda _: get_schema, response=db.run)`
then the summary prompt and LLM.  The `schema` mapper returns the
`get_schema` function object itself without calling it, so the summary
prompt's schema slot receives `SchemaInput.funcObj`, not the description. -/
def chain_invoke (o : Oracles) (db : SQLDatabase) (store : String)
    (user_query : String) (chat_history : List Msg) :
    Except Err String × String × List Event :=
  match sql_chain_invoke o db store chat_history with
  | (.error e, st, tr) => (.error e, st, tr)
  | (.ok query, st, tr) =>
    let schemaVal : SchemaInput := .funcObj
    match db.run query with
    | .error e => (.error e, st, tr ++ [.dbRunCall query])
    | .ok response =>
      let tr := tr ++ [.dbRunCall query]
      match o.sumLLM schemaVal chat_history query user_query response with
      | .error e =>
          (.error e, st, tr ++ [.sumLLMCall schemaVal chat_history query user_query response])
      | .ok answer =>
          (.ok answer, st, tr ++ [.sumLLMCall schemaVal chat_history query user_query response])

/-- Result of `SQLAssistant.generate_response`: the text returned to the
caller (never an exception), the store afterwards, and the trace. -/
structure PipelineResult where
  response : String
  store : String
  events : List Event
deriving Repr

/-- `SQLAssistant.generate_response`: invoke the chain inside one
`try/except`; on any exception return the fixed `error_message` instead. -/
def generate_response (o : Oracles) (user_query : String) (db : SQLDatabase)
    (store : String) (chat_history : List Msg) : PipelineResult :=
  match chain_invoke o db store user_query chat_history with
  | (.ok answer, st, tr) => ⟨answer, st, tr⟩
  | (.error _, st, tr) => ⟨error_message, st, tr⟩

/-! ## ChatApp -/

/-- The greeting placed in the log by `init_session_state`. -/
def initial_chat_history : List Msg :=
  [⟨.ai, "Hello! I'm SQL assistant. Ask me anything about your database."⟩]

/-- The fixed rejection reply for Serious questions verified Not-Related. -/
def rejection_message : String :=
  "Thank you for your question! It doesn't seem to be related to the database. Feel free to ask anything related to the database, such as queries about employees, products, sales, or other business data, and I'll be happy to assist you!"

/-- Python `chat_history[-2:]`: the last two entries (the whole list when it
is shorter). -/
def lastTwo (l : List Msg) : List Msg :=
  l.drop (l.length - 2)

/-- Outcome of one `handle_user_query` turn: the exception that propagated
out of it (if any), the session state afterwards (conversation log and
description store, reflecting every mutation made before a raise), and the
trace of external calls. -/
structure TurnResult where
  err : Option Err
  chat_history : List Msg
  store : String
  events : List Event
deriving Repr

/-- `ChatApp.handle_user_query`: append the Human message, then — only when
a database handle is set — classify, verify relevance, and answer via the
pipeline, the fixed rejection text, or the non-serious responder. -/
def handle_user_query (o : Oracles) (db : Option SQLDatabase)
    (chat_history : List Msg) (store : String) (user_query : String) : TurnResult :=
  if user_query = "" then
    ⟨none, chat_history, store, []⟩
  else
    let hist1 := chat_history ++ [⟨.human, user_query⟩]
    match db with
    | none => ⟨none, hist1, store, []⟩
    | some db =>
      match classify_question o user_query with
      | .error e => ⟨some e, hist1, store, [.classifierCall user_query]⟩
      | .ok classification =>
        let tr0 := [Event.classifierCall user_query]
        if classification = "serious" then
          match db.get_table_info with
          | .error e => ⟨some e, hist1, store, tr0 ++ [.dbGetInfoCall]⟩
          | .ok schema_info =>
            let d := describe_and_save_all o.describeLLM store schema_info
            let tr1 := tr0 ++ [Event.dbGetInfoCall] ++ d.events
            match d.ret with
            | .error e => ⟨some e, hist1, d.store, tr1⟩
            | .ok descriptions =>
              match verify_schema_relevance o user_query descriptions with
              | .error e =>
                  ⟨some e, hist1, d.store, tr1 ++ [.verifierCall user_query descriptions]⟩
              | .ok relevance =>
                let tr2 := tr1 ++ [Event.verifierCall user_query descriptions]
                if relevance = "related" then
                  let suffix := lastTwo hist1
                  let p := generate_response o user_query db d.store suffix
                  ⟨none, hist1 ++ [⟨.ai, p.response⟩], p.store,
                    tr2 ++ [Event.pipelineCall user_query suffix] ++ p.events⟩
                else
                  ⟨none, hist1 ++ [⟨.ai, rejection_message⟩], d.store, tr2⟩
        else
          match get_non_serious_response o user_query with
          | .error e => ⟨some e, hist1, store, tr0 ++ [.nonSeriousCall user_query]⟩
          | .ok response =>
              ⟨none, hist1 ++ [⟨.ai, response⟩], store, tr0 ++ [.nonSeriousCall user_query]⟩

/-- Run a sequence of user turns in order, threading the session state.
Returns `none` as soon as a turn lets an exception propagate. -/
def run_turns (o : Oracles) (db : Option SQLDatabase) :
    List String → List Msg → String → Option (List Msg × String)
  | [], hist, store => some (hist, store)
  | q :: qs, hist, store =>
    let r := handle_user_query o db hist store q
    match r.err with
    | some _ => none
    | none => run_turns o db qs r.chat_history r.store

/-! ## Concrete instances used to evaluate the model on closed inputs -/

instance {e a : Type} [DecidableEq e] [DecidableEq a] : DecidableEq (Except e a) := fun x y =>
  match x, y with
  | .ok u, .ok v =>
    if h : u = v then .isTrue (by rw [h]) else .isFalse (by intro hc; cases hc; exact h rfl)
  | .error u, .error v =>
    if h : u = v then .isTrue (by rw [h]) else .isFalse (by intro hc; cases hc; exact h rfl)
  | .ok _, .error _ => .isFalse (by intro hc; cases hc)
  | .error _, .ok _ => .isFalse (by intro hc; cases hc)

/-- Mock LLM oracles that answer every prompt successfully with fixed text,
classifying the question Serious and verifying it Related. -/
def mockOracles : Oracles :=
  ⟨fun _ => .ok "Serious", fun _ _ => .ok "Related", fun _ => .ok " Sure thing! ",
   fun _ => .ok "THE DESCRIPTION", fun _ _ => .ok "SELECT 1", fun _ _ _ _ _ => .ok "answer"⟩

/-- Like `mockOracles` but the classifier answers Non-Serious. -/
def mockOraclesNonSerious : Oracles :=
  ⟨fun _ => .ok "Non-Serious", fun _ _ => .ok "Related", fun _ => .ok " Sure thing! ",
   fun _ => .ok "THE DESCRIPTION", fun _ _ => .ok "SELECT 1", fun _ _ _ _ _ => .ok "answer"⟩

/-- Like `mockOracles` but the verifier answers Not related. -/
def mockOraclesNotRelated : Oracles :=
  ⟨fun _ => .ok "Serious", fun _ _ => .ok "Not related", fun _ => .ok " Sure thing! ",
   fun _ => .ok "THE DESCRIPTION", fun _ _ => .ok "SELECT 1", fun _ _ _ _ _ => .ok "answer"⟩

/-- A database handle whose introspection and queries succeed. -/
def mockDB : SQLDatabase := ⟨.ok "RAW", fun _ => .ok "RESULT"⟩

/-- A database handle whose query execution raises (e.g. malformed SQL). -/
def failingDB : SQLDatabase := ⟨.ok "RAW", fun _ => .error "quota"⟩

/-- A schema-description LLM returning the fixed text `"d"`. -/
def constDescribeLLM : String → Except Err String := fun _ => .ok "d"

/-! ## Helper lemmas -/

lemma countEvents_eq_zero {p : Event → Bool} {l : List Event}
    (h : ∀ e ∈ l, p e = false) : countEvents p l = 0 := by
  simp only [countEvents, List.length_eq_zero, List.filter_eq_nil_iff]
  intro e he
  simp [h e he]

lemma countEvents_append (p : Event → Bool) (a b : List Event) :
    countEvents p (a ++ b) = countEvents p a + countEvents p b := by
  simp [countEvents, List.filter_append]

lemma countEvents_cons (p : Event → Bool) (e : Event) (l : List Event) :
    countEvents p (e :: l) = (if p e then 1 else 0) + countEvents p l := by
  by_cases h : p e
  · simp [countEvents, List.filter_cons, h]
    omega
  · simp [countEvents, List.filter_cons, h]

/-- The trace of one `describe_and_save_all` call takes one of three shapes:
cache hit, LLM failure, or generate-and-write. -/
lemma describe_events_cases (f : String → Except Err String) (st sch : String) :
    (describe_and_save_all f st sch).events = [.describeCall] ∨
    (describe_and_save_all f st sch).events = [.describeCall, .describeLLMCall] ∨
    ∃ s, (describe_and_save_all f st sch).events = [.describeCall, .describeLLMCall, .storeWrite s] := by
  unfold describe_and_save_all
  by_cases h : load_existing_descriptions st ≠ ""
  · left; simp [h]
  · rw [not_not] at h
    cases hg : generate_description f sch with
    | error e => right; left; simp [h, hg]
    | ok dsc => right; right; exact ⟨dsc, by simp [h, hg]⟩

lemma describe_events_mem (f : String → Except Err String) (st sch : String) :
    ∀ e ∈ (describe_and_save_all f st sch).events,
      e = .describeCall ∨ e = .describeLLMCall ∨ ∃ s, e = .storeWrite s := by
  intro e he
  rcases describe_events_cases f st sch with hd | hd | ⟨s, hd⟩ <;> rw [hd] at he <;>
    simp at he <;> tauto

/-- After a successful `describe_and_save_all` call the store is nonempty,
so every later call is a cache hit. -/
lemma describe_cached (f : String → Except Err String) (st sch : String) (ds : String)
    (h : (describe_and_save_all f st sch).ret = .ok ds) :
    (describe_and_save_all f st sch).store ≠ "" := by
  unfold describe_and_save_all load_existing_descriptions at *
  by_cases hne : st ≠ ""
  · simp [hne]
  · rw [not_not] at hne
    cases hg : generate_description f sch with
    | error e => rw [hne] at h; simp [hne, hg] at h
    | ok dsc =>
      simp [hne, hg, save_descriptions]
      intro hc
      have hl := congrArg String.length hc
      rw [String.length_append] at hl
      have h82 : separator.length = 82 := by decide
      have h0 : ("" : String).length = 0 := rfl
      omega

lemma describe_counts (f : String → Except Err String) (st sch : String) :
    countEvents isSqlLLMCall (describe_and_save_all f st sch).events = 0 ∧
    countEvents isDbRunCall (describe_and_save_all f st sch).events = 0 ∧
    countEvents isSumLLMCall (describe_and_save_all f st sch).events = 0 ∧
    countEvents isDescribeLLMCall (describe_and_save_all f st sch).events ≤ 1 := by
  rcases describe_events_cases f st sch with hd | hd | ⟨s, hd⟩ <;> rw [hd] <;>
    refine ⟨rfl, rfl, rfl, ?_⟩ <;> simp [countEvents, isDescribeLLMCall]

/-- When the store already holds content, the chain inside `generate_response`
reduces to cache hit, SQL LLM call, query execution, summary LLM call. -/
lemma chain_invoke_cached (o : Oracles) (db : SQLDatabase) (si store2 q : String) (h : List Msg)
    (hinfo : db.get_table_info = .ok si) (hst : store2 ≠ "") :
    chain_invoke o db store2 q h =
      match o.sqlLLM store2 h with
      | .error e => (.error e, store2, [.dbGetInfoCall, .describeCall, .sqlLLMCall store2 h])
      | .ok sql =>
        match db.run sql with
        | .error e =>
            (.error e, store2,
              [.dbGetInfoCall, .describeCall, .sqlLLMCall store2 h, .dbRunCall sql])
        | .ok resp =>
          match o.sumLLM .funcObj h sql q resp with
          | .error e =>
              (.error e, store2,
                [.dbGetInfoCall, .describeCall, .sqlLLMCall store2 h, .dbRunCall sql,
                 .sumLLMCall .funcObj h sql q resp])
          | .ok answer =>
              (.ok answer, store2,
                [.dbGetInfoCall, .describeCall, .sqlLLMCall store2 h, .dbRunCall sql,
                 .sumLLMCall .funcObj h sql q resp]) := by
  unfold chain_invoke sql_chain_invoke get_schema
  rw [hinfo]
  simp only [describe_and_save_all, load_existing_descriptions, if_pos hst]
  cases hsql : o.sqlLLM store2 h with
  | error e => simp
  | ok sql =>
    cases hrun : db.run sql with
    | error e => simp
    | ok resp =>
      cases hsum : o.sumLLM .funcObj h sql q resp with
      | error e => simp
      | ok answer => simp

lemma chain_cached_counts (o : Oracles) (db : SQLDatabase) (si store2 q : String)
    (h : List Msg) (hinfo : db.get_table_info = .ok si) (hst : store2 ≠ "") :
    countEvents isSqlLLMCall (chain_invoke o db store2 q h).2.2 ≤ 1 ∧
    countEvents isDbRunCall (chain_invoke o db store2 q h).2.2 ≤ 1 ∧
    countEvents isSumLLMCall (chain_invoke o db store2 q h).2.2 ≤ 1 ∧
    countEvents isDescribeLLMCall (chain_invoke o db store2 q h).2.2 = 0 := by
  rw [chain_invoke_cached o db si store2 q h hinfo hst]
  cases hsql : o.sqlLLM store2 h with
  | error e =>
    simp [hsql, countEvents, isSqlLLMCall, isDbRunCall, isSumLLMCall, isDescribeLLMCall]
  | ok sql =>
    cases hrun : db.run sql with
    | error e =>
      simp [hsql, hrun, countEvents, isSqlLLMCall, isDbRunCall, isSumLLMCall,
        isDescribeLLMCall]
    | ok resp =>
      cases hsum : o.sumLLM .funcObj h sql q resp with
      | error e =>
        simp [hsql, hrun, hsum, countEvents, isSqlLLMCall, isDbRunCall, isSumLLMCall,
          isDescribeLLMCall]
      | ok answer =>
        simp [hsql, hrun, hsum, countEvents, isSqlLLMCall, isDbRunCall, isSumLLMCall,
          isDescribeLLMCall]

/-- No event recorded inside the pipeline chain is an orchestrator-level call. -/
lemma chain_events_mem (o : Oracles) (db : SQLDatabase) (store q : String) (h : List Msg) :
    ∀ e ∈ (chain_invoke o db store q h).2.2,
      isClassifierCall e = false ∧ isVerifierCall e = false ∧
      isNonSeriousCall e = false ∧ isPipelineCall e = false := by
  have base : ∀ e, e = Event.dbGetInfoCall ∨ e = .describeCall ∨ e = .describeLLMCall ∨
      (∃ s, e = .storeWrite s) ∨ (∃ d hh, e = .sqlLLMCall d hh) ∨ (∃ s, e = .dbRunCall s) ∨
      (∃ a b c d2 f, e = .sumLLMCall a b c d2 f) →
      isClassifierCall e = false ∧ isVerifierCall e = false ∧
      isNonSeriousCall e = false ∧ isPipelineCall e = false := by
    rintro e (rfl | rfl | rfl | ⟨s, rfl⟩ | ⟨d, hh, rfl⟩ | ⟨s, rfl⟩ | ⟨a, b, c, d2, f, rfl⟩) <;>
      simp [isClassifierCall, isVerifierCall, isNonSeriousCall, isPipelineCall]
  intro e he
  apply base
  unfold chain_invoke sql_chain_invoke get_schema at he
  cases hinfo : db.get_table_info with
  | error er =>
    simp only [hinfo] at he
    simp at he
    tauto
  | ok si =>
    simp only [hinfo] at he
    cases hdret : (describe_and_save_all o.describeLLM store si).ret with
    | error er =>
      simp only [hdret] at he
      simp at he
      rcases he with rfl | he
      · tauto
      · rcases describe_events_mem _ _ _ e he with rfl | rfl | ⟨s, rfl⟩ <;> tauto
    | ok descs =>
      simp only [hdret] at he
      cases hsql : o.sqlLLM descs h with
      | error er =>
        simp only [hsql] at he
        simp at he
        rcases he with rfl | he | rfl
        · tauto
        · rcases describe_events_mem _ _ _ e he with rfl | rfl | ⟨s, rfl⟩ <;> tauto
        · right; right; right; right; left; exact ⟨descs, h, rfl⟩
      | ok sql =>
        simp only [hsql] at he
        cases hrun : db.run sql with
        | error er =>
          simp only [hrun] at he
          simp at he
          rcases he with rfl | he | rfl | rfl
          · tauto
          · rcases describe_events_mem _ _ _ e he with rfl | rfl | ⟨s, rfl⟩ <;> tauto
          · right; right; right; right; left; exact ⟨descs, h, rfl⟩
          · right; right; right; right; right; left; exact ⟨sql, rfl⟩
        | ok resp =>
          simp only [hrun] at he
          cases hsum : o.sumLLM .funcObj h sql q resp with
          | error er =>
            simp only [hsum] at he
            simp at he
            rcases he with rfl | he | rfl | rfl | rfl
            · tauto
            · rcases describe_events_mem _ _ _ e he with rfl | rfl | ⟨s, rfl⟩ <;> tauto
            · right; right; right; right; left; exact ⟨descs, h, rfl⟩
            · right; right; right; right; right; left; exact ⟨sql, rfl⟩
            · right; right; right; right; right; right; exact ⟨_, _, _, _, _, rfl⟩
          | ok answer =>
            simp only [hsum] at he
            simp at he
            rcases he with rfl | he | rfl | rfl | rfl
            · tauto
            · rcases describe_events_mem _ _ _ e he with rfl | rfl | ⟨s, rfl⟩ <;> tauto
            · right; right; right; right; left; exact ⟨descs, h, rfl⟩
            · right; right; right; right; right; left; exact ⟨sql, rfl⟩
            · right; right; right; right; right; right; exact ⟨_, _, _, _, _, rfl⟩

lemma generate_response_events (o : Oracles) (q : String) (db : SQLDatabase)
    (st : String) (h : List Msg) :
    (generate_response o q db st h).events = (chain_invoke o db st q h).2.2 := by
  unfold generate_response
  rcases hc : chain_invoke o db st q h with ⟨ret, st2, tr⟩
  cases ret <;> rfl

/-- The try/except in `generate_response` maps every raised stage to the
fixed `error_message`. -/
lemma generate_response_on_error (o : Oracles) (q : String) (db : SQLDatabase)
    (st : String) (h : List Msg) (e : Err)
    (herr : (chain_invoke o db st q h).1 = .error e) :
    (generate_response o q db st h).response = error_message := by
  unfold generate_response
  rcases hc : chain_invoke o db st q h with ⟨ret, st2, tr⟩
  rw [hc] at herr
  cases ret with
  | error e2 => rfl
  | ok a => cases herr

/-- Reduction of `handle_user_query` on the Serious/Not-Related path. -/
lemma handle_notrelated (o : Oracles) (db : SQLDatabase) (hist : List Msg)
    (store q raw si ds vraw : String)
    (hq : q ≠ "") (hclass : o.classifyLLM q = .ok raw)
    (hser : pyLower (pyStrip raw) = "serious")
    (hinfo : db.get_table_info = .ok si)
    (hdesc : (describe_and_save_all o.describeLLM store si).ret = .ok ds)
    (hver : o.verifyLLM q ds = .ok vraw)
    (hnotrel : pyLower (pyStrip vraw) ≠ "related") :
    handle_user_query o (some db) hist store q =
      ⟨none, (hist ++ [⟨.human, q⟩]) ++ [⟨.ai, rejection_message⟩],
        (describe_and_save_all o.describeLLM store si).store,
        .classifierCall q :: .dbGetInfoCall ::
          ((describe_and_save_all o.describeLLM store si).events ++ [.verifierCall q ds])⟩ := by
  unfold handle_user_query
  rw [if_neg hq]
  simp [classify_question, hclass, hser, hinfo, hdesc, verify_schema_relevance, hver, hnotrel]

/-- Reduction of `handle_user_query` on the Serious/Related path. -/
lemma handle_related (o : Oracles) (db : SQLDatabase) (hist : List Msg)
    (store q raw si ds vraw : String)
    (hq : q ≠ "") (hclass : o.classifyLLM q = .ok raw)
    (hser : pyLower (pyStrip raw) = "serious")
    (hinfo : db.get_table_info = .ok si)
    (hdesc : (describe_and_save_all o.describeLLM store si).ret = .ok ds)
    (hver : o.verifyLLM q ds = .ok vraw)
    (hrel : pyLower (pyStrip vraw) = "related") :
    handle_user_query o (some db) hist store q =
      ⟨none,
        (hist ++ [⟨.human, q⟩]) ++
          [⟨.ai, (generate_response o q db (describe_and_save_all o.describeLLM store si).store
                    (lastTwo (hist ++ [⟨.human, q⟩]))).response⟩],
        (generate_response o q db (describe_and_save_all o.describeLLM store si).store
          (lastTwo (hist ++ [⟨.human, q⟩]))).store,
        .classifierCall q :: .dbGetInfoCall ::
          ((describe_and_save_all o.describeLLM store si).events ++
            (.verifierCall q ds ::
              .pipelineCall q (lastTwo (hist ++ [⟨.human, q⟩])) ::
                (generate_response o q db (describe_and_save_all o.describeLLM store si).store
                  (lastTwo (hist ++ [⟨.human, q⟩]))).events))⟩ := by
  unfold handle_user_query
  rw [if_neg hq]
  simp [classify_question, hclass, hser, hinfo, hdesc, verify_schema_relevance, hver, hrel]

/-- A turn with a database handle that lets no exception propagate appends
exactly one Human/AI pair to the conversation log. -/
lemma turn_ok_shape (o : Oracles) (db : SQLDatabase) (hist : List Msg) (store q : String)
    (hq : q ≠ "") (hok : (handle_user_query o (some db) hist store q).err = none) :
    ∃ r, (handle_user_query o (some db) hist store q).chat_history =
      hist ++ [⟨.human, q⟩, ⟨.ai, r⟩] := by
  unfold handle_user_query at hok ⊢
  rw [if_neg hq] at hok ⊢
  cases hclass : classify_question o q with
  | error e => simp only [hclass] at hok; cases hok
  | ok cls =>
    simp only [hclass] at hok ⊢
    by_cases hser : cls = "serious"
    · simp only [if_pos hser] at hok ⊢
      cases hinfo : db.get_table_info with
      | error e => simp only [hinfo] at hok; cases hok
      | ok si =>
        simp only [hinfo] at hok ⊢
        cases hdesc : (describe_and_save_all o.describeLLM store si).ret with
        | error e => simp only [hdesc] at hok; cases hok
        | ok ds =>
          simp only [hdesc] at hok ⊢
          cases hver : verify_schema_relevance o q ds with
          | error e => simp only [hver] at hok; cases hok
          | ok rel =>
            simp only [hver] at hok ⊢
            by_cases hrel : rel = "related"
            · simp only [if_pos hrel]
              exact ⟨(generate_response o q db
                  (describe_and_save_all o.describeLLM store si).store
                  (lastTwo (hist ++ [⟨.human, q⟩]))).response, by simp⟩
            · simp only [if_neg hrel]
              exact ⟨rejection_message, by simp⟩
    · simp only [if_neg hser] at hok ⊢
      cases hresp : get_non_serious_response o q with
      | error e => simp only [hresp] at hok; cases hok
      | ok resp =>
        simp only [hresp]
        exact ⟨resp, by simp⟩

lemma run_turns_shape (o : Oracles) (db : SQLDatabase) (qs : List String) :
    ∀ hist store hist2 store2, (∀ q ∈ qs, q ≠ "") →
    run_turns o (some db) qs hist store = some (hist2, store2) →
    ∃ rs : List String, rs.length = qs.length ∧
      hist2 = hist ++ (List.zipWith (fun q r => [⟨.human, q⟩, ⟨.ai, r⟩]) qs rs).flatten := by
  induction qs with
  | nil =>
    intro hist store hist2 store2 _ h
    simp only [run_turns, Option.some.injEq, Prod.mk.injEq] at h
    exact ⟨[], by simp, by simp [h.1]⟩
  | cons q qs ih =>
    intro hist store hist2 store2 hne h
    unfold run_turns at h
    cases herr : (handle_user_query o (some db) hist store q).err with
    | some e => simp only [herr] at h; cases h
    | none =>
      simp only [herr] at h
      obtain ⟨r, hr⟩ := turn_ok_shape o db hist store q (hne q (by simp)) herr
      obtain ⟨rs, hlen, hshape⟩ := ih _ _ _ _ (fun x hx => hne x (by simp [hx])) h
      exact ⟨r :: rs, by simp [hlen], by rw [hshape, hr]; simp⟩

lemma pairs_length (qs rs : List String) (h : rs.length = qs.length) :
    (List.zipWith (fun q r => ([⟨.human, q⟩, ⟨.ai, r⟩] : List Msg)) qs rs).flatten.length
      = 2 * qs.length := by
  induction qs generalizing rs with
  | nil => simp
  | cons q qs ih =>
    cases rs with
    | nil => simp at h
    | cons r rs =>
      have := ih rs (by simpa using h)
      simp [this]
      omega

/-! ## Claim theorems -/

/-- Claim C3: every `describe_and_save_all` call with content already in the
store returns the stored content verbatim — regardless of the schema
argument — with no LLM call and no store write; with an empty store it makes
one LLM call, appends the (stripped) description plus the separator to the
store, and returns the description. -/
theorem describe_and_save_all_contract (f : String → Except Err String)
    (store schema : String) :
    (store ≠ "" → describe_and_save_all f store schema = ⟨.ok store, store, [.describeCall]⟩) ∧
    (store = "" → ∀ d, f schema = .ok d →
      describe_and_save_all f store schema =
        ⟨.ok (pyStrip d), store ++ pyStrip d ++ separator,
         [.describeCall, .describeLLMCall, .storeWrite (pyStrip d)]⟩) := by
  constructor
  · intro h
    simp [describe_and_save_all, load_existing_descriptions, h]
  · intro h d hd
    subst h
    simp [describe_and_save_all, load_existing_descriptions, generate_description, hd,
      save_descriptions]

/-- Witness for C3: both branches of the contract evaluated on concrete
stores and a concrete describe LLM. -/
theorem describe_and_save_all_contract_witness :
    (("X" : String) ≠ "" ∧
      describe_and_save_all constDescribeLLM "X" "RAW" = ⟨.ok "X", "X", [.describeCall]⟩) ∧
    (("" : String) = "" ∧ constDescribeLLM "RAW" = .ok "d" ∧
      describe_and_save_all constDescribeLLM "" "RAW" =
        ⟨.ok (pyStrip "d"), "" ++ pyStrip "d" ++ separator,
         [.describeCall, .describeLLMCall, .storeWrite (pyStrip "d")]⟩) :=
  ⟨⟨by decide, (describe_and_save_all_contract constDescribeLLM "X" "RAW").1 (by decide)⟩,
   ⟨rfl, rfl, (describe_and_save_all_contract constDescribeLLM "" "RAW").2 rfl "d" rfl⟩⟩

/-- Counterexample to claim C2: with an initially empty store, the first
`describe_and_save_all` call returns the bare description while the second
returns the store content (description plus separator), so the two outputs
are not byte-identical even though the store was written exactly once. -/
theorem describe_twice_not_byte_identical :
    ¬ ((describe_and_save_all constDescribeLLM "" "s").ret =
        (describe_and_save_all constDescribeLLM
          (describe_and_save_all constDescribeLLM "" "s").store "s").ret ∧
       countEvents isStoreWrite
         ((describe_and_save_all constDescribeLLM "" "s").events ++
          (describe_and_save_all constDescribeLLM
            (describe_and_save_all constDescribeLLM "" "s").store "s").events) = 1) := by
  decide

/-- Claim C2 as amended: across two consecutive calls where the first
succeeds, the store is written at most once, the second call returns the
store content after the first; with an initially nonempty store both calls
return the stored content byte-identically and no write occurs, while with
an initially empty store the second call returns the first call's output
with the separator appended and exactly one write occurs. -/
theorem describe_twice_amended (f : String → Except Err String)
    (store schema1 schema2 : String) :
    (store ≠ "" →
      (describe_and_save_all f store schema1).ret = .ok store ∧
      (describe_and_save_all f (describe_and_save_all f store schema1).store schema2).ret
        = .ok store ∧
      countEvents isStoreWrite
        ((describe_and_save_all f store schema1).events ++
         (describe_and_save_all f (describe_and_save_all f store schema1).store schema2).events)
        = 0) ∧
    (store = "" → ∀ d, f schema1 = .ok d →
      (describe_and_save_all f store schema1).ret = .ok (pyStrip d) ∧
      (describe_and_save_all f (describe_and_save_all f store schema1).store schema2).ret
        = .ok (pyStrip d ++ separator) ∧
      countEvents isStoreWrite
        ((describe_and_save_all f store schema1).events ++
         (describe_and_save_all f (describe_and_save_all f store schema1).store schema2).events)
        = 1) := by
  constructor
  · intro h
    simp [describe_and_save_all, load_existing_descriptions, h, countEvents, isStoreWrite]
  · intro h d hd
    subst h
    have h1 : describe_and_save_all f "" schema1 =
        ⟨.ok (pyStrip d), pyStrip d ++ separator,
         [.describeCall, .describeLLMCall, .storeWrite (pyStrip d)]⟩ := by
      simp [describe_and_save_all, load_existing_descriptions, generate_description, hd,
        save_descriptions]
    have hne : pyStrip d ++ separator ≠ "" := by
      intro hc
      have hl := congrArg String.length hc
      rw [String.length_append] at hl
      have h82 : separator.length = 82 := by decide
      have h0 : ("" : String).length = 0 := rfl
      omega
    rw [h1]
    simp [describe_and_save_all, load_existing_descriptions, hne, countEvents, isStoreWrite]

/-- Witness for the amended C2: both branches evaluated on concrete inputs. -/
theorem describe_twice_amended_witness :
    (("X" : String) ≠ "" ∧
      (describe_and_save_all constDescribeLLM "X" "s").ret = .ok "X" ∧
      (describe_and_save_all constDescribeLLM
        (describe_and_save_all constDescribeLLM "X" "s").store "t").ret = .ok "X" ∧
      countEvents isStoreWrite
        ((describe_and_save_all constDescribeLLM "X" "s").events ++
         (describe_and_save_all constDescribeLLM
           (describe_and_save_all constDescribeLLM "X" "s").store "t").events) = 0) ∧
    (("" : String) = "" ∧ constDescribeLLM "s" = .ok "d" ∧
      (describe_and_save_all constDescribeLLM "" "s").ret = .ok (pyStrip "d") ∧
      (describe_and_save_all constDescribeLLM
        (describe_and_save_all constDescribeLLM "" "s").store "t").ret
        = .ok (pyStrip "d" ++ separator) ∧
      countEvents isStoreWrite
        ((describe_and_save_all constDescribeLLM "" "s").events ++
         (describe_and_save_all constDescribeLLM
           (describe_and_save_all constDescribeLLM "" "s").store "t").events) = 1) :=
  ⟨⟨by decide, (describe_twice_amended constDescribeLLM "X" "s" "t").1 (by decide)⟩,
   ⟨rfl, rfl, (describe_twice_amended constDescribeLLM "" "s" "t").2 rfl "d" rfl⟩⟩

/-- Claim C10: a nonempty user message handled while the session database
handle is unset appends the Human message to the log, invokes no external
collaborator (empty trace, hence no classifier, verifier, responder or
pipeline call), appends no AI message, and raises nothing. -/
theorem no_db_appends_human_only (o : Oracles) (hist : List Msg) (store q : String)
    (hq : q ≠ "") :
    handle_user_query o none hist store q = ⟨none, hist ++ [⟨.human, q⟩], store, []⟩ := by
  unfold handle_user_query
  rw [if_neg hq]

/-- Witness for C10 at a concrete message. -/
theorem no_db_appends_human_only_witness :
    ("hello" : String) ≠ "" ∧
    handle_user_query mockOracles none initial_chat_history "" "hello" =
      ⟨none, initial_chat_history ++ [⟨.human, "hello"⟩], "", []⟩ :=
  ⟨by decide, no_db_appends_human_only mockOracles initial_chat_history "" "hello" (by decide)⟩

/-- Claim C5: when the classifier's normalized output is not "serious" (the
question is Non-Serious) and the responder call returns, the turn never
invokes the Schema Relevance Verifier or the SQL pipeline (verifier,
pipeline, SQL-LLM, query-run and summary-LLM counts are all zero), invokes
the Non-Serious Responder exactly once, and appends exactly one AI message
(the stripped responder output) after the Human message. -/
theorem non_serious_skips_verifier_and_pipeline (o : Oracles) (db : SQLDatabase)
    (hist : List Msg) (store q raw resp : String)
    (hq : q ≠ "") (hclass : o.classifyLLM q = .ok raw)
    (hns : pyLower (pyStrip raw) ≠ "serious")
    (hresp : o.nonSeriousLLM q = .ok resp) :
    handle_user_query o (some db) hist store q =
      ⟨none, hist ++ [⟨.human, q⟩, ⟨.ai, pyStrip resp⟩], store,
        [.classifierCall q, .nonSeriousCall q]⟩ ∧
    countEvents isVerifierCall (handle_user_query o (some db) hist store q).events = 0 ∧
    countEvents isPipelineCall (handle_user_query o (some db) hist store q).events = 0 ∧
    countEvents isSqlLLMCall (handle_user_query o (some db) hist store q).events = 0 ∧
    countEvents isDbRunCall (handle_user_query o (some db) hist store q).events = 0 ∧
    countEvents isSumLLMCall (handle_user_query o (some db) hist store q).events = 0 ∧
    countEvents isNonSeriousCall (handle_user_query o (some db) hist store q).events = 1 := by
  have key : handle_user_query o (some db) hist store q =
      ⟨none, hist ++ [⟨.human, q⟩, ⟨.ai, pyStrip resp⟩], store,
        [.classifierCall q, .nonSeriousCall q]⟩ := by
    unfold handle_user_query
    rw [if_neg hq]
    simp [classify_question, hclass, hns, get_non_serious_response, hresp]
  refine ⟨key, ?_, ?_, ?_, ?_, ?_, ?_⟩ <;> rw [key] <;> rfl

/-- Witness for C5: the "Tell me a joke" scenario with mocked LLMs. -/
theorem non_serious_skips_verifier_and_pipeline_witness :
    ("Tell me a joke" : String) ≠ "" ∧
    mockOraclesNonSerious.classifyLLM "Tell me a joke" = .ok "Non-Serious" ∧
    pyLower (pyStrip "Non-Serious") ≠ "serious" ∧
    mockOraclesNonSerious.nonSeriousLLM "Tell me a joke" = .ok " Sure thing! " ∧
    handle_user_query mockOraclesNonSerious (some mockDB) initial_chat_history ""
        "Tell me a joke" =
      ⟨none, initial_chat_history ++
          [⟨.human, "Tell me a joke"⟩, ⟨.ai, pyStrip " Sure thing! "⟩], "",
        [.classifierCall "Tell me a joke", .nonSeriousCall "Tell me a joke"]⟩ :=
  ⟨by decide, rfl, by decide, rfl,
   (non_serious_skips_verifier_and_pipeline mockOraclesNonSerious mockDB
      initial_chat_history "" "Tell me a joke" "Non-Serious" " Sure thing! "
      (by decide) rfl (by decide) rfl).1⟩

/-- Claim C6: a question classified Serious whose relevance verdict is not
"related" gets the fixed `rejection_message` appended verbatim as the AI
reply, and the SQL pipeline is never invoked that turn (pipeline, SQL-LLM,
query-run and summary-LLM counts are zero). -/
theorem not_related_appends_fixed_rejection (o : Oracles) (db : SQLDatabase)
    (hist : List Msg) (store q raw si ds vraw : String)
    (hq : q ≠ "") (hclass : o.classifyLLM q = .ok raw)
    (hser : pyLower (pyStrip raw) = "serious")
    (hinfo : db.get_table_info = .ok si)
    (hdesc : (describe_and_save_all o.describeLLM store si).ret = .ok ds)
    (hver : o.verifyLLM q ds = .ok vraw)
    (hnotrel : pyLower (pyStrip vraw) ≠ "related") :
    handle_user_query o (some db) hist store q =
      ⟨none, (hist ++ [⟨.human, q⟩]) ++ [⟨.ai, rejection_message⟩],
        (describe_and_save_all o.describeLLM store si).store,
        .classifierCall q :: .dbGetInfoCall ::
          ((describe_and_save_all o.describeLLM store si).events ++ [.verifierCall q ds])⟩ ∧
    countEvents isPipelineCall (handle_user_query o (some db) hist store q).events = 0 ∧
    countEvents isSqlLLMCall (handle_user_query o (some db) hist store q).events = 0 ∧
    countEvents isDbRunCall (handle_user_query o (some db) hist store q).events = 0 ∧
    countEvents isSumLLMCall (handle_user_query o (some db) hist store q).events = 0 := by
  have key := handle_notrelated o db hist store q raw si ds vraw hq hclass hser hinfo hdesc
    hver hnotrel
  refine ⟨key, ?_, ?_, ?_, ?_⟩
  all_goals
    rw [key]
    apply countEvents_eq_zero
    intro e he
    simp at he
    rcases he with rfl | rfl | he | rfl
    · rfl
    · rfl
    · rcases describe_events_mem _ _ _ e he with rfl | rfl | ⟨s, rfl⟩ <;> rfl
    · rfl

/-- Witness for C6: a Serious question verified Not related, with mocked
LLMs and an empty description store. -/
theorem not_related_appends_fixed_rejection_witness :
    ("What is the weather?" : String) ≠ "" ∧
    mockOraclesNotRelated.classifyLLM "What is the weather?" = .ok "Serious" ∧
    pyLower (pyStrip "Serious") = "serious" ∧
    mockDB.get_table_info = .ok "RAW" ∧
    (describe_and_save_all mockOraclesNotRelated.describeLLM "" "RAW").ret
      = .ok "THE DESCRIPTION" ∧
    mockOraclesNotRelated.verifyLLM "What is the weather?" "THE DESCRIPTION"
      = .ok "Not related" ∧
    pyLower (pyStrip "Not related") ≠ "related" ∧
    handle_user_query mockOraclesNotRelated (some mockDB) initial_chat_history ""
        "What is the weather?" =
      ⟨none, (initial_chat_history ++ [⟨.human, "What is the weather?"⟩]) ++
          [⟨.ai, rejection_message⟩],
        (describe_and_save_all mockOraclesNotRelated.describeLLM "" "RAW").store,
        .classifierCall "What is the weather?" :: .dbGetInfoCall ::
          ((describe_and_save_all mockOraclesNotRelated.describeLLM "" "RAW").events ++
            [.verifierCall "What is the weather?" "THE DESCRIPTION"])⟩ :=
  ⟨by decide, rfl, by decide, rfl, by decide, rfl, by decide,
   (not_related_appends_fixed_rejection mockOraclesNotRelated mockDB initial_chat_history
      "" "What is the weather?" "Serious" "RAW" "THE DESCRIPTION" "Not related"
      (by decide) rfl (by decide) rfl (by decide) rfl (by decide)).1⟩

/-- Claim C7: the classifier's output is the raw LLM completion stripped and
lowercased; the turn takes the Serious branch exactly when that normalized
output equals "serious", and any other output routes the question to the
Non-Serious Responder (one responder call, no verifier and no pipeline). -/
theorem classifier_normalizes_and_routes (o : Oracles) (db : SQLDatabase)
    (hist : List Msg) (store q raw : String)
    (hq : q ≠ "") (hclass : o.classifyLLM q = .ok raw) :
    classify_question o q = .ok (pyLower (pyStrip raw)) ∧
    (pyLower (pyStrip raw) = "serious" →
      countEvents isNonSeriousCall (handle_user_query o (some db) hist store q).events = 0) ∧
    (pyLower (pyStrip raw) ≠ "serious" →
      countEvents isNonSeriousCall (handle_user_query o (some db) hist store q).events = 1 ∧
      countEvents isVerifierCall (handle_user_query o (some db) hist store q).events = 0 ∧
      countEvents isPipelineCall (handle_user_query o (some db) hist store q).events = 0 ∧
      countEvents isSqlLLMCall (handle_user_query o (some db) hist store q).events = 0 ∧
      countEvents isDbRunCall (handle_user_query o (some db) hist store q).events = 0 ∧
      countEvents isSumLLMCall (handle_user_query o (some db) hist store q).events = 0) := by
  have hcq : classify_question o q = .ok (pyLower (pyStrip raw)) := by
    simp [classify_question, hclass]
  refine ⟨hcq, ?_, ?_⟩
  · intro hser
    unfold handle_user_query
    rw [if_neg hq]
    simp only [hcq, if_pos hser]
    cases hinfo : db.get_table_info with
    | error e =>
      simp only [hinfo]
      rfl
    | ok si =>
      simp only [hinfo]
      cases hdret : (describe_and_save_all o.describeLLM store si).ret with
      | error e =>
        simp only [hdret]
        apply countEvents_eq_zero
        intro e2 he
        simp at he
        rcases he with rfl | rfl | he
        · rfl
        · rfl
        · rcases describe_events_mem _ _ _ e2 he with rfl | rfl | ⟨s, rfl⟩ <;> rfl
      | ok ds =>
        simp only [hdret]
        cases hver : verify_schema_relevance o q ds with
        | error e =>
          simp only [hver]
          apply countEvents_eq_zero
          intro e2 he
          simp at he
          rcases he with rfl | rfl | he | rfl
          · rfl
          · rfl
          · rcases describe_events_mem _ _ _ e2 he with rfl | rfl | ⟨s, rfl⟩ <;> rfl
          · rfl
        | ok rel =>
          simp only [hver]
          by_cases hrel : rel = "related"
          · simp only [if_pos hrel]
            apply countEvents_eq_zero
            intro e2 he
            simp [generate_response_events] at he
            rcases he with rfl | rfl | he | rfl | rfl | he
            · rfl
            · rfl
            · rcases describe_events_mem _ _ _ e2 he with rfl | rfl | ⟨s, rfl⟩ <;> rfl
            · rfl
            · rfl
            · exact (chain_events_mem _ _ _ _ _ e2 he).2.2.1
          · simp only [if_neg hrel]
            apply countEvents_eq_zero
            intro e2 he
            simp at he
            rcases he with rfl | rfl | he | rfl
            · rfl
            · rfl
            · rcases describe_events_mem _ _ _ e2 he with rfl | rfl | ⟨s, rfl⟩ <;> rfl
            · rfl
  · intro hns
    have key : (handle_user_query o (some db) hist store q).events =
        [.classifierCall q, .nonSeriousCall q] := by
      unfold handle_user_query
      rw [if_neg hq]
      simp only [hcq, if_neg hns]
      cases hresp : o.nonSeriousLLM q with
      | error e => simp [get_non_serious_response, hresp]
      | ok resp => simp [get_non_serious_response, hresp]
    rw [key]
    exact ⟨rfl, rfl, rfl, rfl, rfl, rfl⟩

/-- Witness for C7: the classifier returning "Non-Serious" routes to the
responder; the normalized output is the stripped lowercased completion. -/
theorem classifier_normalizes_and_routes_witness :
    ("Tell me a joke" : String) ≠ "" ∧
    mockOraclesNonSerious.classifyLLM "Tell me a joke" = .ok "Non-Serious" ∧
    classify_question mockOraclesNonSerious "Tell me a joke" =
      .ok (pyLower (pyStrip "Non-Serious")) :=
  ⟨by decide, rfl,
   (classifier_normalizes_and_routes mockOraclesNonSerious mockDB initial_chat_history ""
      "Tell me a joke" "Non-Serious" (by decide) rfl).1⟩

/-- Claim C1: on the Related path, if any stage of the pipeline chain raises
(SQL generation, execution or summarization — the chain result is an error),
`generate_response` returns the fixed `error_message` instead of propagating
(the turn raises nothing), the orchestrator appends that text as the AI
message of the turn, and no stage is retried: the SQL-LLM, query-run,
summary-LLM and describe-LLM calls each happen at most once in the turn. -/
theorem sql_pipeline_failure_boundary (o : Oracles) (db : SQLDatabase) (hist : List Msg)
    (store q raw si ds vraw : String) (e : Err)
    (hq : q ≠ "") (hclass : o.classifyLLM q = .ok raw)
    (hser : pyLower (pyStrip raw) = "serious")
    (hinfo : db.get_table_info = .ok si)
    (hdesc : (describe_and_save_all o.describeLLM store si).ret = .ok ds)
    (hver : o.verifyLLM q ds = .ok vraw)
    (hrel : pyLower (pyStrip vraw) = "related")
    (herr : (chain_invoke o db (describe_and_save_all o.describeLLM store si).store q
      (lastTwo (hist ++ [⟨.human, q⟩]))).1 = .error e) :
    (generate_response o q db (describe_and_save_all o.describeLLM store si).store
      (lastTwo (hist ++ [⟨.human, q⟩]))).response = error_message ∧
    (handle_user_query o (some db) hist store q).err = none ∧
    (handle_user_query o (some db) hist store q).chat_history =
      (hist ++ [⟨.human, q⟩]) ++ [⟨.ai, error_message⟩] ∧
    countEvents isSqlLLMCall (handle_user_query o (some db) hist store q).events ≤ 1 ∧
    countEvents isDbRunCall (handle_user_query o (some db) hist store q).events ≤ 1 ∧
    countEvents isSumLLMCall (handle_user_query o (some db) hist store q).events ≤ 1 ∧
    countEvents isDescribeLLMCall (handle_user_query o (some db) hist store q).events ≤ 1 := by
  have hresp := generate_response_on_error _ _ _ _ _ _ herr
  have key := handle_related o db hist store q raw si ds vraw hq hclass hser hinfo hdesc
    hver hrel
  have hst : (describe_and_save_all o.describeLLM store si).store ≠ "" :=
    describe_cached o.describeLLM store si ds hdesc
  have hd := describe_counts o.describeLLM store si
  have hc := chain_cached_counts o db si (describe_and_save_all o.describeLLM store si).store
    q (lastTwo (hist ++ [⟨.human, q⟩])) hinfo hst
  refine ⟨hresp, ?_, ?_, ?_, ?_, ?_, ?_⟩
  · rw [key]
  · rw [key, hresp]
  · rw [key]
    simp only [generate_response_events, countEvents_cons, countEvents_append, isSqlLLMCall]
    have h1 := hd.1
    have h2 := hc.1
    simp only [Bool.false_eq_true, if_false]
    omega
  · rw [key]
    simp only [generate_response_events, countEvents_cons, countEvents_append, isDbRunCall]
    have h1 := hd.2.1
    have h2 := hc.2.1
    simp only [Bool.false_eq_true, if_false]
    omega
  · rw [key]
    simp only [generate_response_events, countEvents_cons, countEvents_append, isSumLLMCall]
    have h1 := hd.2.2.1
    have h2 := hc.2.2.1
    simp only [Bool.false_eq_true, if_false]
    omega
  · rw [key]
    simp only [generate_response_events, countEvents_cons, countEvents_append,
      isDescribeLLMCall]
    have h1 := hd.2.2.2
    have h2 := hc.2.2.2
    simp only [Bool.false_eq_true, if_false]
    omega

/-- Witness for C1: the query-execution stage raises, the pipeline returns
the fixed retry-later text. -/
theorem sql_pipeline_failure_boundary_witness :
    ("How many employees?" : String) ≠ "" ∧
    mockOracles.classifyLLM "How many employees?" = .ok "Serious" ∧
    pyLower (pyStrip "Serious") = "serious" ∧
    failingDB.get_table_info = .ok "RAW" ∧
    (describe_and_save_all mockOracles.describeLLM "" "RAW").ret = .ok "THE DESCRIPTION" ∧
    mockOracles.verifyLLM "How many employees?" "THE DESCRIPTION" = .ok "Related" ∧
    pyLower (pyStrip "Related") = "related" ∧
    (chain_invoke mockOracles failingDB
        (describe_and_save_all mockOracles.describeLLM "" "RAW").store "How many employees?"
        (lastTwo (initial_chat_history ++ [⟨.human, "How many employees?"⟩]))).1
      = .error "quota" ∧
    (generate_response mockOracles "How many employees?" failingDB
        (describe_and_save_all mockOracles.describeLLM "" "RAW").store
        (lastTwo (initial_chat_history ++ [⟨.human, "How many employees?"⟩]))).response
      = error_message :=
  ⟨by decide, rfl, by decide, rfl, by decide, rfl, by decide, by decide,
   (sql_pipeline_failure_boundary mockOracles failingDB initial_chat_history ""
      "How many employees?" "Serious" "RAW" "THE DESCRIPTION" "Related" "quota"
      (by decide) rfl (by decide) rfl (by decide) rfl (by decide) (by decide)).1⟩

/-- Claim C9: on the Related path the pipeline is invoked with exactly the
last two entries of the conversation log at that point (`chat_history[-2:]`
after the Human message was appended): the unique pipeline call in the trace
carries that suffix, the suffix has at most two messages, and it is a suffix
of the log. -/
theorem pipeline_gets_last_two_messages (o : Oracles) (db : SQLDatabase) (hist : List Msg)
    (store q raw si ds vraw : String)
    (hq : q ≠ "") (hclass : o.classifyLLM q = .ok raw)
    (hser : pyLower (pyStrip raw) = "serious")
    (hinfo : db.get_table_info = .ok si)
    (hdesc : (describe_and_save_all o.describeLLM store si).ret = .ok ds)
    (hver : o.verifyLLM q ds = .ok vraw)
    (hrel : pyLower (pyStrip vraw) = "related") :
    Event.pipelineCall q (lastTwo (hist ++ [⟨.human, q⟩])) ∈
      (handle_user_query o (some db) hist store q).events ∧
    (∀ q2 h2, Event.pipelineCall q2 h2 ∈ (handle_user_query o (some db) hist store q).events →
      q2 = q ∧ h2 = lastTwo (hist ++ [⟨.human, q⟩])) ∧
    (lastTwo (hist ++ [⟨.human, q⟩])).length ≤ 2 ∧
    (hist ++ [(⟨.human, q⟩ : Msg)]).take ((hist ++ [(⟨.human, q⟩ : Msg)]).length - 2) ++
      lastTwo (hist ++ [⟨.human, q⟩]) = hist ++ [(⟨.human, q⟩ : Msg)] := by
  have key := handle_related o db hist store q raw si ds vraw hq hclass hser hinfo hdesc
    hver hrel
  refine ⟨?_, ?_, ?_, ?_⟩
  · rw [key]
    simp
  · intro q2 h2 hmem
    rw [key] at hmem
    simp at hmem
    rcases hmem with hmem | ⟨rfl, rfl⟩ | hmem
    · rcases describe_events_mem _ _ _ _ hmem with h | h | ⟨s, h⟩ <;> simp at h
    · exact ⟨rfl, rfl⟩
    · have := (chain_events_mem o db _ q _ _ (by
        rw [generate_response_events] at hmem; exact hmem)).2.2.2
      simp [isPipelineCall] at this
  · simp [lastTwo]
    omega
  · exact List.take_append_drop ((hist ++ [(⟨.human, q⟩ : Msg)]).length - 2)
      (hist ++ [(⟨.human, q⟩ : Msg)])

/-- Witness for C9: a Related turn with mocked LLMs; the trace contains the
pipeline call with the two-message suffix. -/
theorem pipeline_gets_last_two_messages_witness :
    ("How many employees?" : String) ≠ "" ∧
    mockOracles.classifyLLM "How many employees?" = .ok "Serious" ∧
    pyLower (pyStrip "Serious") = "serious" ∧
    mockDB.get_table_info = .ok "RAW" ∧
    (describe_and_save_all mockOracles.describeLLM "" "RAW").ret = .ok "THE DESCRIPTION" ∧
    mockOracles.verifyLLM "How many employees?" "THE DESCRIPTION" = .ok "Related" ∧
    pyLower (pyStrip "Related") = "related" ∧
    Event.pipelineCall "How many employees?"
        (lastTwo (initial_chat_history ++ [⟨.human, "How many employees?"⟩])) ∈
      (handle_user_query mockOracles (some mockDB) initial_chat_history ""
        "How many employees?").events :=
  ⟨by decide, rfl, by decide, rfl, by decide, rfl, by decide,
   (pipeline_gets_last_two_messages mockOracles mockDB initial_chat_history ""
      "How many employees?" "Serious" "RAW" "THE DESCRIPTION" "Related"
      (by decide) rfl (by decide) rfl (by decide) rfl (by decide)).1⟩

/-- Claim C4: starting from the initial greeting, any sequence of N turns
that each complete (nonempty messages, database handle set, no exception
propagating) leaves the log with exactly 1 + 2N messages: the greeting
followed by one Human/AI pair per turn, in append order. -/
theorem conversation_log_turn_shape (o : Oracles) (db : SQLDatabase) (qs : List String)
    (store : String) (hist2 : List Msg) (store2 : String)
    (hne : ∀ q ∈ qs, q ≠ "")
    (hrun : run_turns o (some db) qs initial_chat_history store = some (hist2, store2)) :
    hist2.length = 1 + 2 * qs.length ∧
    ∃ rs : List String, rs.length = qs.length ∧
      hist2 = initial_chat_history ++
        (List.zipWith (fun q r => [⟨.human, q⟩, ⟨.ai, r⟩]) qs rs).flatten := by
  obtain ⟨rs, hlen, hshape⟩ := run_turns_shape o db qs _ _ _ _ hne hrun
  refine ⟨?_, rs, hlen, hshape⟩
  rw [hshape, List.length_append, pairs_length qs rs hlen]
  simp [initial_chat_history]

/-- Witness for C4: two completed turns leave five messages in the log. -/
theorem conversation_log_turn_shape_witness :
    (∀ q ∈ (["Hi", "Bye"] : List String), q ≠ "") ∧
    run_turns mockOraclesNonSerious (some mockDB) ["Hi", "Bye"] initial_chat_history ""
      = some (initial_chat_history ++
          [⟨.human, "Hi"⟩, ⟨.ai, pyStrip " Sure thing! "⟩,
           ⟨.human, "Bye"⟩, ⟨.ai, pyStrip " Sure thing! "⟩], "") ∧
    (initial_chat_history ++
        [⟨.human, "Hi"⟩, ⟨.ai, pyStrip " Sure thing! "⟩,
         ⟨.human, "Bye"⟩, ⟨.ai, pyStrip " Sure thing! "⟩] : List Msg).length
      = 1 + 2 * (["Hi", "Bye"] : List String).length :=
  ⟨by decide, by decide,
   (conversation_log_turn_shape mockOraclesNonSerious mockDB ["Hi", "Bye"] ""
      (initial_chat_history ++
        [⟨.human, "Hi"⟩, ⟨.ai, pyStrip " Sure thing! "⟩,
         ⟨.human, "Bye"⟩, ⟨.ai, pyStrip " Sure thing! "⟩]) ""
      (by decide) (by decide)).1⟩

/-- Claim C8 (code bug in the source): within one pipeline invocation the
schema description is computed only once — in the SQL-generation chain —
and the summarization prompt's schema slot receives the `get_schema`
function object (`schema=lambda _: get_schema` returns the function without
calling it), not the cached description text: the trace holds exactly one
describe call and its summary-LLM call carries `SchemaInput.funcObj`. -/
theorem summary_schema_is_function_object :
    (generate_response mockOracles "q" mockDB "" []).events =
      [.dbGetInfoCall, .describeCall, .describeLLMCall, .storeWrite "THE DESCRIPTION",
       .sqlLLMCall "THE DESCRIPTION" [], .dbRunCall "SELECT 1",
       .sumLLMCall .funcObj [] "SELECT 1" "q" "RESULT"] ∧
    countEvents isDescribeCall (generate_response mockOracles "q" mockDB "" []).events = 1 ∧
    countEvents isSumLLMCall (generate_response mockOracles "q" mockDB "" []).events = 1 ∧
    countEvents isSumLLMCallWithText
      (generate_response mockOracles "q" mockDB "" []).events = 0 := by
  refine ⟨by decide, by decide, by decide, by decide⟩

end BIAssistant
